import Mathlib

/-!
Verification of the Linda webhook agent: a shallow embedding of the
webhook intake and decision/dispatch pipeline (signature check, event
summarization, action classification, logging, dispatch, notification)
together with theorems about the embedded definitions.

Sources embedded: the request handler (`handler` in `src/index.ts`),
the agent pipeline (`createLindaAgent.handleWebhook`, `summarizeEvent`,
`decideAction`, `logToSheet`, `runAgent`, `buildNewAgentRepo`,
`commitFileToGitHub`, `sendTelegramNotification` in the agent module),
and the Google client helpers (`getAuth`, `appendToSheet`).

Modelling conventions:
- JavaScript `async` functions that may reject are embedded as
  `Except String α` results; `Except.error` means the promise rejected
  (an exception propagated) and, at the handler level, that no HTTP
  response was ever sent.
- Environment variables are `Option String`; `none` models an unset (or
  JS-falsy empty) variable, matching the `if (!x)` checks in the code.
- Outbound network calls are recorded in an `Effect` trace, and their
  outcomes are supplied by an `Ext` oracle, since the remote services
  are external collaborators.
- JS template-literal interpolation of `undefined` produces the literal
  text `"undefined"`; this is modelled by `jsInterp`.
-/

namespace Linda

/-- A commit entry of a `push` payload: the code reads `commits[].message`. -/
structure Commit where
  message : Option String := none
deriving DecidableEq

/-- The `repository` object of a payload: the code reads `repository.full_name`. -/
structure Repository where
  full_name : Option String := none
deriving DecidableEq

/-- The `issue` object of a payload: the code reads `issue.title` and `issue.body`. -/
structure Issue where
  title : Option String := none
  body : Option String := none
deriving DecidableEq

/-- The `comment` object of a payload: the code reads `comment.body`. -/
structure Comment where
  body : Option String := none
deriving DecidableEq

/-- The structured webhook payload. Every field the pipeline reads is
optional, mirroring the optional chaining (`?.`) and nullish coalescing
(`??`) the source uses on the untyped JSON body. -/
structure Payload where
  repository : Option Repository := none
  commits : Option (List Commit) := none
  issue : Option Issue := none
  comment : Option Comment := none
deriving DecidableEq

/-- JS template-literal interpolation of a possibly-`undefined` string:
`undefined` is rendered as the literal text `"undefined"`. -/
def jsInterp : Option String → String
  | none => "undefined"
  | some s => s

/-- JS `String.prototype.toLowerCase`, modelled characterwise over the
code points (the trigger phrases and summaries involved are ASCII). -/
def jsToLower (s : String) : String := ⟨s.data.map Char.toLower⟩

/-- JS `String.prototype.trim`: strip leading and trailing whitespace. -/
def jsTrim (s : String) : String :=
  ⟨((s.data.dropWhile Char.isWhitespace).reverse.dropWhile Char.isWhitespace).reverse⟩

/-- Embedding of `summarizeEvent(event, payload)`.

- `push`: `` `Push to ${repo?.full_name ?? "unknown"}: ${commits?.map((c) => c.message).join(" | ")}` ``.
  Note that when `commits` is absent the optional chain short-circuits to
  `undefined` and the template interpolates the text `"undefined"`; when a
  commit's `message` is absent, `Array.prototype.join` renders it as `""`.
- `issues`: `` `Issue: ${issue?.title ?? ""} ${issue?.body ?? ""}`.trim() ``.
- `issue_comment`: `` `Issue comment: ${comment?.body ?? ""}`.trim() ``.
- otherwise: `` `Unhandled event ${event}` ``. -/
def summarizeEvent (event : String) (payload : Payload) : String :=
  if event = "push" then
    let repoName := (payload.repository.bind Repository.full_name).getD "unknown"
    let commitsPart := jsInterp (payload.commits.map (fun cs =>
      String.intercalate " | " (cs.map (fun c => c.message.getD ""))))
    "Push to " ++ repoName ++ ": " ++ commitsPart
  else if event = "issues" then
    let issueTitle := (payload.issue.bind Issue.title).getD ""
    let issueBody := (payload.issue.bind Issue.body).getD ""
    jsTrim ("Issue: " ++ issueTitle ++ " " ++ issueBody)
  else if event = "issue_comment" then
    let commentBody := (payload.comment.bind Comment.body).getD ""
    jsTrim ("Issue comment: " ++ commentBody)
  else
    "Unhandled event " ++ event

/-- JS `String.prototype.includes`: contiguous substring containment,
embedded as decidable infixhood on the character lists. -/
def stringIncludes (s pat : String) : Bool := decide (pat.data <:+: s.data)

/-- Embedding of `decideAction(summary)`: lower-case the summary and test
for the two trigger phrases; returns the action strings the code uses. -/
def decideAction (summary : String) : String :=
  let lowered := jsToLower summary
  if stringIncludes lowered "build an agent" || stringIncludes lowered "generate a new agent" then
    "build-agent"
  else
    "fix-or-feature"

example : summarizeEvent "push"
    { repository := some { full_name := some "acme/widgets" },
      commits := some [{ message := some "fix bug" }, { message := some "add test" }] }
    = "Push to acme/widgets: fix bug | add test" := by decide

example : summarizeEvent "push" { } = "Push to unknown: undefined" := by decide

example : summarizeEvent "issues" { } = "Issue:" := by decide

example : decideAction "please build an agent for X" = "build-agent" := by decide

example : decideAction "BUILD AN AGENT now" = "build-agent" := by decide

example : decideAction "fix the login bug" = "fix-or-feature" := by decide

/-- Process-wide configuration read from environment variables.
`none` models an unset (or JS-falsy empty) variable, matching the
`if (!x)` / `??` checks in the source. -/
structure Env where
  GITHUB_WEBHOOK_SECRET : Option String := none
  GOOGLE_SHEETS_ID : Option String := none
  GOOGLE_SHEETS_RANGE : Option String := none
  GOOGLE_CLIENT_EMAIL : Option String := none
  GOOGLE_PRIVATE_KEY : Option String := none
  GITHUB_TOKEN : Option String := none
  GITHUB_OWNER : Option String := none
  TELEGRAM_BOT_TOKEN : Option String := none
  TELEGRAM_CHAT_ID : Option String := none

/-- Observable outbound calls to external collaborators, recorded in
order of occurrence. -/
inductive Effect where
  | sheetAppend (spreadsheetId range : String) (values : List (List String))
  | llmInvoke (summary : String)
  | createRepo (name desc : String) (isPrivate : Bool)
  | gitCommit (owner repo path message content branch : String)
  | telegramSend (chatId message : String)
deriving DecidableEq

/-- Oracle fixing, for one request, the outcomes of the remote calls the
pipeline can make and the clock readings it can take. `Except.error e`
models the underlying promise rejecting with error `e`. -/
structure Ext where
  nowISO : String := ""
  now : Nat := 0
  appendResult : Except String Unit := .ok ()
  llmResult : Except String String := .ok ""
  createRepoResult : Except String Unit := .ok ()
  commitResult : Except String Unit := .ok ()
  sendMessageResult : Except String Unit := .ok ()

/-- Embedding of `getAuth()` in `googleClient.ts`: throws when either
Google credential is absent; the JWT object itself is an external detail,
so a successful construction is modelled as `.ok ()`. -/
def getAuth (env : Env) : Except String Unit :=
  match env.GOOGLE_CLIENT_EMAIL, env.GOOGLE_PRIVATE_KEY with
  | some _, some _ => .ok ()
  | _, _ => .error "Missing GOOGLE_CLIENT_EMAIL or GOOGLE_PRIVATE_KEY"

/-- Embedding of `appendToSheet(spreadsheetId, range, values)`: first
`getAuth()` (which can throw before any network call), then the remote
row-append call, whose outcome the `Ext` oracle supplies. -/
def appendToSheet (env : Env) (ext : Ext) (spreadsheetId range : String)
    (values : List (List String)) : Except String Unit × List Effect :=
  match getAuth env with
  | .error e => (.error e, [])
  | .ok () => (ext.appendResult, [.sheetAppend spreadsheetId range values])

/-- Embedding of `logToSheet({event, action, summary})`: a silent no-op
when `GOOGLE_SHEETS_ID` is unset, otherwise one appended row
`[timestamp, event, action, summary]` to the configured range
(default `"Logs!A:D"`). Note the source has no `try`/`catch` here: a
failure of the append propagates to the caller. -/
def logToSheet (env : Env) (ext : Ext) (event action summary : String) :
    Except String Unit × List Effect :=
  match env.GOOGLE_SHEETS_ID with
  | none => (.ok (), [])
  | some spreadsheetId =>
    let range := env.GOOGLE_SHEETS_RANGE.getD "Logs!A:D"
    appendToSheet env ext spreadsheetId range [[ext.nowISO, event, action, summary]]

/-- Embedding of `runAgent(summary)`: one chat-completion call to the
reasoning backend; its textual content (or rejection) comes from the
oracle. -/
def runAgent (ext : Ext) (summary : String) : Except String String × List Effect :=
  (ext.llmResult, [.llmInvoke summary])

/-- Embedding of `commitFileToGitHub.func`: short-circuits with the
string `"Missing GITHUB_TOKEN"` when the token is unset, otherwise runs
the read-ref/read-commit/create-blob/create-tree/create-commit/update-ref
sequence against the repository host. That remote sequence is an opaque
external collaborator, so it is recorded as one `gitCommit` effect whose
overall outcome (any step rejecting) the oracle supplies. -/
def commitFileToGitHub (env : Env) (ext : Ext)
    (owner repo path message content branch : String) :
    Except String String × List Effect :=
  match env.GITHUB_TOKEN with
  | none => (.ok "Missing GITHUB_TOKEN", [])
  | some _ =>
    match ext.commitResult with
    | .error e => (.error e, [.gitCommit owner repo path message content branch])
    | .ok () =>
      (.ok ("Committed to " ++ owner ++ "/" ++ repo ++ ":" ++ path),
        [.gitCommit owner repo path message content branch])

/-- Embedding of `buildNewAgentRepo(summary)`: configuration checks for
token and owner (returning the `"Missing …"` strings with no remote
call), then creation of the private repository `agent-${Date.now()}`,
then the README scaffold commit, then the confirmation string. -/
def buildNewAgentRepo (env : Env) (ext : Ext) (summary : String) :
    Except String String × List Effect :=
  match env.GITHUB_TOKEN with
  | none => (.ok "Missing GITHUB_TOKEN", [])
  | some _ =>
    match env.GITHUB_OWNER with
    | none => (.ok "Missing GITHUB_OWNER", [])
    | some owner =>
      let repoName := "agent-" ++ toString ext.now
      let createEff := Effect.createRepo repoName "Generated agent scaffold from Linda" true
      match ext.createRepoResult with
      | .error e => (.error e, [createEff])
      | .ok () =>
        let scaffold := "# " ++ repoName ++ "\n\nGenerated by Linda. Summary: " ++ summary ++ "\n"
        let commitStep := commitFileToGitHub env ext owner repoName "README.md"
          "chore: initial agent scaffold" scaffold "main"
        match commitStep.1 with
        | .error e => (.error e, createEff :: commitStep.2)
        | .ok _ => (.ok ("Created new agent repository: " ++ repoName), createEff :: commitStep.2)

/-- Embedding of `sendTelegramNotification.func`: returns the
`"Missing …"` status string when the bot token or chat id is unset,
otherwise performs the send-message call, whose outcome the oracle
supplies. Note the source has no `try`/`catch` around `sendMessage`. -/
def sendTelegramNotification (env : Env) (ext : Ext) (message : String) :
    Except String String × List Effect :=
  match env.TELEGRAM_BOT_TOKEN, env.TELEGRAM_CHAT_ID with
  | some _, some chatId =>
    match ext.sendMessageResult with
    | .error e => (.error e, [.telegramSend chatId message])
    | .ok () => (.ok "Telegram notification sent", [.telegramSend chatId message])
  | _, _ => (.ok "Missing TELEGRAM_BOT_TOKEN or TELEGRAM_CHAT_ID", [])

/-- Embedding of `createLindaAgent().handleWebhook({event, payload})`:
summarize, classify, `await logToSheet`, dispatch to exactly one of
`buildNewAgentRepo` / `runAgent`, `await sendTelegramNotification`,
return the dispatch result. Every `await` without a `try`/`catch` is a
propagation point: an `.error` outcome aborts the remaining steps. -/
def handleWebhook (env : Env) (ext : Ext) (event : String) (payload : Payload) :
    Except String String × List Effect :=
  let summary := summarizeEvent event payload
  let action := decideAction summary
  let logStep := logToSheet env ext event action summary
  match logStep.1 with
  | .error e => (.error e, logStep.2)
  | .ok () =>
    let dispatchStep :=
      if action = "build-agent" then buildNewAgentRepo env ext summary
      else runAgent ext summary
    match dispatchStep.1 with
    | .error e => (.error e, logStep.2 ++ dispatchStep.2)
    | .ok result =>
      let noteStep := sendTelegramNotification env ext
        ("Linda update: " ++ action ++ " completed. Summary: " ++ summary ++
          ". Result: " ++ result)
      match noteStep.1 with
      | .error e => (.error e, logStep.2 ++ dispatchStep.2 ++ noteStep.2)
      | .ok _ => (.ok result, logStep.2 ++ dispatchStep.2 ++ noteStep.2)

/-- An inbound HTTP request as the handler sees it: method, the
`x-hub-signature-256` and `x-github-event` headers, and the raw body. -/
structure Request where
  method : String := "POST"
  signatureHeader : Option String := none
  eventHeader : Option String := none
  rawBody : String := ""

/-- The JSON body of an HTTP response: `{message}` for non-200 statuses,
`{status: "ok", result}` for 200. -/
inductive RespBody where
  | message (m : String)
  | okResult (result : String)
deriving DecidableEq

/-- An HTTP response: status code plus JSON body shape. -/
structure Response where
  status : Nat
  body : RespBody
deriving DecidableEq

/-- Embedding of the exported `handler(req, res)` in `index.ts`.
`verify` models `webhooks.verify` (HMAC-SHA256 of the raw body under the
shared secret compared with the signature header) and is applied to the
raw, unparsed body string; `parse` models `JSON.parse` on that same raw
body. A final `.error` means the promise rejected before any response
was written (the source wraps nothing in `try`/`catch`). -/
def handler (env : Env) (verify : String → String → String → Bool)
    (parse : String → Except String Payload) (ext : Ext) (req : Request) :
    Except String Response × List Effect :=
  if req.method ≠ "POST" then (.ok ⟨405, .message "Method Not Allowed"⟩, [])
  else
    match env.GITHUB_WEBHOOK_SECRET with
    | none => (.ok ⟨500, .message "Missing GITHUB_WEBHOOK_SECRET"⟩, [])
    | some sec =>
      match req.signatureHeader, req.eventHeader with
      | some sig, some ev =>
        if verify sec req.rawBody sig then
          match parse req.rawBody with
          | .error e => (.error e, [])
          | .ok payload =>
            match handleWebhook env ext ev payload with
            | (.ok result, effs) => (.ok ⟨200, .okResult result⟩, effs)
            | (.error e, effs) => (.error e, effs)
        else (.ok ⟨401, .message "Invalid signature"⟩, [])
      | _, _ => (.ok ⟨400, .message "Missing GitHub webhook headers"⟩, [])

/-! ## Helper lemmas shared by several theorems -/

/-- `stringIncludes` decides substring containment on the character lists. -/
theorem stringIncludes_iff (s pat : String) :
    stringIncludes s pat = true ↔ pat.data <:+: s.data := by
  simp [stringIncludes]

/-- The classifier can only return its two action strings. -/
theorem decideAction_eq_or (s : String) :
    decideAction s = "build-agent" ∨ decideAction s = "fix-or-feature" := by
  simp only [decideAction]
  split
  · exact Or.inl rfl
  · exact Or.inr rfl

/-- The classifier returns "build-agent" exactly on the trigger phrases. -/
theorem decideAction_eq_build_iff (s : String) :
    decideAction s = "build-agent"
      ↔ ("build an agent".data <:+: (jsToLower s).data
          ∨ "generate a new agent".data <:+: (jsToLower s).data) := by
  simp only [decideAction]
  split
  · rename_i h
    simp only [Bool.or_eq_true, stringIncludes_iff] at h
    simpa using h
  · rename_i h
    simp only [Bool.or_eq_true, stringIncludes_iff] at h
    simpa using h

/-! ## Claim theorems -/

/-- C5: the Action Classifier is total and deterministic (a pure
function into its two action strings) and returns the build action
exactly when the lower-cased summary contains the literal substring
"build an agent" or "generate a new agent", and the fix-or-feature
action otherwise. -/
theorem claim_classifier_spec (s : String) :
    (decideAction s = "build-agent"
      ↔ ("build an agent".data <:+: (jsToLower s).data
          ∨ "generate a new agent".data <:+: (jsToLower s).data))
    ∧ (decideAction s = "build-agent" ∨ decideAction s = "fix-or-feature") :=
  ⟨decideAction_eq_build_iff s, decideAction_eq_or s⟩

/-- C6: the Event Summarizer is pure and deterministic (two calls on
identical arguments give identical summaries), and on the push payload
with repository "acme/widgets" and commits "fix bug", "add test" it
produces exactly "Push to acme/widgets: fix bug | add test". -/
theorem claim_summarizer_deterministic_push_example :
    (∀ (event : String) (p : Payload), summarizeEvent event p = summarizeEvent event p)
    ∧ summarizeEvent "push"
        { repository := some { full_name := some "acme/widgets" },
          commits := some [{ message := some "fix bug" }, { message := some "add test" }] }
        = "Push to acme/widgets: fix bug | add test" :=
  ⟨fun _ _ => rfl, by decide⟩

/-- C4 as stated is false: on a push payload whose commits array is
absent, the summarizer interpolates the JS value `undefined` as the
literal text "undefined" — it does not substitute the empty string and
does not omit the field. -/
theorem claim_summarizer_absent_fields_cex :
    summarizeEvent "push" { } = "Push to unknown: undefined"
    ∧ "Push to unknown: undefined" ≠ "Push to unknown: "
    ∧ "Push to unknown: undefined" ≠ "Push to unknown:" :=
  ⟨by decide, by decide, by decide⟩

/-- C4 amended: the summarizer never raises an error (it is a total
function on every payload); an absent issue object, comment object or
commit message is rendered as the empty string and an absent repository
as "unknown", but an absent commits array in a push event is rendered as
the literal text "undefined". -/
theorem claim_summarizer_absent_fields (p : Payload) :
    (p.commits = none → summarizeEvent "push" p
        = "Push to " ++ ((p.repository.bind Repository.full_name).getD "unknown")
            ++ ": undefined")
    ∧ (p.issue = none → summarizeEvent "issues" p = "Issue:")
    ∧ (p.comment = none → summarizeEvent "issue_comment" p = "Issue comment:")
    ∧ (∀ cs, p.commits = some cs → (∀ c ∈ cs, c.message = none) →
        summarizeEvent "push" p
          = "Push to " ++ ((p.repository.bind Repository.full_name).getD "unknown")
              ++ ": " ++ String.intercalate " | " (cs.map fun _ => "")) := by
  refine ⟨?_, ?_, ?_, ?_⟩
  · intro h
    simp [summarizeEvent, h, jsInterp, String.append_assoc]
  · intro h
    simp [summarizeEvent, h]
    decide
  · intro h
    simp [summarizeEvent, h]
    decide
  · intro cs h hmsg
    have hmap : cs.map (fun c => c.message.getD "") = cs.map (fun _ => "") :=
      List.map_congr_left (fun c hc => by rw [hmsg c hc]; rfl)
    simp [summarizeEvent, h, jsInterp, hmap]

/-- Witness for the amended C4 theorem at concrete payloads. -/
theorem claim_summarizer_absent_fields_witness :
    summarizeEvent "push" { } = "Push to unknown: undefined"
    ∧ summarizeEvent "issues" { } = "Issue:"
    ∧ summarizeEvent "issue_comment" { } = "Issue comment:"
    ∧ summarizeEvent "push" { commits := some [{ }, { }] } = "Push to unknown:  | " := by
  refine ⟨?_, ?_, ?_, ?_⟩
  · have h := (claim_summarizer_absent_fields { }).1 rfl
    rw [h]; decide
  · exact (claim_summarizer_absent_fields { }).2.1 rfl
  · exact (claim_summarizer_absent_fields { }).2.2.1 rfl
  · have h := (claim_summarizer_absent_fields { commits := some [{ }, { }] }).2.2.2
      [{ }, { }] rfl (by decide)
    rw [h]; decide

/-- C8: a POST request with the secret configured but missing the
`x-hub-signature-256` or the `x-github-event` header is answered 400
with the "Missing GitHub webhook headers" body and an empty effect
trace: no log write, no dispatch, no notification, for every verifier,
parser and oracle. -/
theorem claim_missing_headers_400 (env : Env)
    (verify : String → String → String → Bool)
    (parse : String → Except String Payload) (ext : Ext) (req : Request)
    (sec : String)
    (hm : req.method = "POST") (hs : env.GITHUB_WEBHOOK_SECRET = some sec)
    (hh : req.signatureHeader = none ∨ req.eventHeader = none) :
    handler env verify parse ext req
      = (.ok ⟨400, .message "Missing GitHub webhook headers"⟩, []) := by
  rcases hh with h | h
  · simp [handler, hm, hs, h]
  · cases hsig : req.signatureHeader <;> simp [handler, hm, hs, h, hsig]

/-- Witness for C8 at a concrete request with no signature header. -/
theorem claim_missing_headers_400_witness :
    handler { GITHUB_WEBHOOK_SECRET := some "s" } (fun _ _ _ => true)
        (fun _ => .ok { }) { }
        { method := "POST", signatureHeader := none, eventHeader := some "push",
          rawBody := "{}" }
      = (.ok ⟨400, .message "Missing GitHub webhook headers"⟩, []) :=
  claim_missing_headers_400 _ _ _ _ _ "s" rfl rfl (Or.inl rfl)

/-- C7: when the verifier (HMAC-SHA256 of the body under the shared
secret, supplied as an oracle since the hash itself is computed by the
webhooks library) rejects the signature, the handler answers 401 with
an empty effect trace — no log write, no dispatch, no notification.
The verifier is applied to `req.rawBody`, the raw unparsed body string,
and the theorem holds for every parser, so the decision never depends
on a re-serialized payload. -/
theorem claim_invalid_signature_401 (env : Env)
    (verify : String → String → String → Bool)
    (parse : String → Except String Payload) (ext : Ext) (req : Request)
    (sec sig ev : String)
    (hm : req.method = "POST") (hs : env.GITHUB_WEBHOOK_SECRET = some sec)
    (hsig : req.signatureHeader = some sig) (hev : req.eventHeader = some ev)
    (hv : verify sec req.rawBody sig = false) :
    handler env verify parse ext req
      = (.ok ⟨401, .message "Invalid signature"⟩, []) := by
  simp [handler, hm, hs, hsig, hev, hv]

/-- Witness for C7 at a concrete request whose signature fails to verify. -/
theorem claim_invalid_signature_401_witness :
    handler { GITHUB_WEBHOOK_SECRET := some "s" } (fun _ _ _ => false)
        (fun _ => .ok { }) { }
        { method := "POST", signatureHeader := some "sha256=00", eventHeader := some "push",
          rawBody := "{}" }
      = (.ok ⟨401, .message "Invalid signature"⟩, []) :=
  claim_invalid_signature_401 _ _ _ _ _ "s" "sha256=00" "push" rfl rfl rfl rfl rfl

/-- C2 as stated is false: a request that passes signature verification
but whose body is not parseable JSON makes `JSON.parse` throw outside
any try/catch, so the handler rejects with the parse error and never
sends an HTTP response — so not every verified request ends in an HTTP
response, let alone a 200. -/
theorem claim_verified_request_200_cex :
    handler { GITHUB_WEBHOOK_SECRET := some "s" } (fun _ _ _ => true)
        (fun _ => .error "Unexpected token") { }
        { method := "POST", signatureHeader := some "sha256=00", eventHeader := some "push",
          rawBody := "not json" }
      = (.error "Unexpected token", []) := rfl

/-- C2 amended: for a verified POST request, when the body parses and
the pipeline completes, the handler responds 200 with
`{status: "ok", result}`; but when the body is unparseable, or any
awaited pipeline step (log append, dispatch, notification send)
rejects, the handler rejects with that error and sends no HTTP
response. -/
theorem claim_verified_request_outcomes (env : Env)
    (verify : String → String → String → Bool)
    (parse : String → Except String Payload) (ext : Ext) (req : Request)
    (sec sig ev : String)
    (hm : req.method = "POST") (hs : env.GITHUB_WEBHOOK_SECRET = some sec)
    (hsig : req.signatureHeader = some sig) (hev : req.eventHeader = some ev)
    (hv : verify sec req.rawBody sig = true) :
    (∀ p result effs, parse req.rawBody = .ok p →
        handleWebhook env ext ev p = (.ok result, effs) →
        handler env verify parse ext req = (.ok ⟨200, .okResult result⟩, effs))
    ∧ (∀ e, parse req.rawBody = .error e →
        handler env verify parse ext req = (.error e, []))
    ∧ (∀ p e effs, parse req.rawBody = .ok p →
        handleWebhook env ext ev p = (.error e, effs) →
        handler env verify parse ext req = (.error e, effs)) := by
  refine ⟨?_, ?_, ?_⟩
  · intro p result effs hp hw
    simp [handler, hm, hs, hsig, hev, hv, hp, hw]
  · intro e hp
    simp [handler, hm, hs, hsig, hev, hv, hp]
  · intro p e effs hp hw
    simp [handler, hm, hs, hsig, hev, hv, hp, hw]

/-- Witness for the amended C2 theorem: a fully successful verified
request gets exactly one response, 200 with the dispatch result. -/
theorem claim_verified_request_outcomes_witness :
    handler { GITHUB_WEBHOOK_SECRET := some "s" } (fun _ _ _ => true)
        (fun _ => .ok { }) { llmResult := .ok "done" }
        { method := "POST", signatureHeader := some "sha256=00", eventHeader := some "push",
          rawBody := "{}" }
      = (.ok ⟨200, .okResult "done"⟩, [.llmInvoke "Push to unknown: undefined"]) :=
  (claim_verified_request_outcomes _ _ _ _ _ "s" "sha256=00" "push"
      rfl rfl rfl rfl rfl).1
    { } "done" [.llmInvoke "Push to unknown: undefined"] rfl rfl

/-- C1 as stated is false: `handleWebhook` awaits `logToSheet` with no
try/catch, so when the configured tabular-store append rejects, the
rejection propagates: the dispatch step is never reached (the only
recorded effect is the attempted append) and the handler rejects with
the append error instead of returning a 200 response. -/
theorem claim_logging_isolated_cex :
    handler
        { GITHUB_WEBHOOK_SECRET := some "s", GOOGLE_SHEETS_ID := some "sheet1",
          GOOGLE_CLIENT_EMAIL := some "svc", GOOGLE_PRIVATE_KEY := some "key" }
        (fun _ _ _ => true) (fun _ => .ok { })
        { nowISO := "2026-01-01T00:00:00.000Z", appendResult := .error "append failed" }
        { method := "POST", signatureHeader := some "sha256=00", eventHeader := some "push",
          rawBody := "{}" }
      = (.error "append failed",
          [.sheetAppend "sheet1" "Logs!A:D"
            [["2026-01-01T00:00:00.000Z", "push", "fix-or-feature",
              "Push to unknown: undefined"]]]) := rfl

/-- C1 amended: logging is isolated only in the unconfigured case — with
no spreadsheet id the Logger is a silent no-op with no network call.
When a destination is configured and the append rejects, the failure is
not isolated: the pipeline stops with exactly the attempted append in
the effect trace, the dispatch step never runs, and no 200 response is
produced. -/
theorem claim_logging_failure_propagates :
    (∀ (env : Env) (ext : Ext) (event action summary : String),
        env.GOOGLE_SHEETS_ID = none →
        logToSheet env ext event action summary = (.ok (), []))
    ∧ (∀ (env : Env) (ext : Ext) (event : String) (payload : Payload)
        (spreadsheetId err : String),
        env.GOOGLE_SHEETS_ID = some spreadsheetId → getAuth env = .ok () →
        ext.appendResult = .error err →
        handleWebhook env ext event payload
          = (.error err,
              [.sheetAppend spreadsheetId (env.GOOGLE_SHEETS_RANGE.getD "Logs!A:D")
                [[ext.nowISO, event, decideAction (summarizeEvent event payload),
                  summarizeEvent event payload]]])) := by
  constructor
  · intro env ext event action summary h
    simp [logToSheet, h]
  · intro env ext event payload spreadsheetId err hid hauth happ
    simp [handleWebhook, logToSheet, appendToSheet, hid, hauth, happ]

/-- Witness for the amended C1 theorem: the unconfigured no-op and the
propagating append failure, both at concrete inputs. -/
theorem claim_logging_failure_propagates_witness :
    logToSheet { } { } "push" "fix-or-feature" "sum" = (.ok (), [])
    ∧ handleWebhook
        { GOOGLE_SHEETS_ID := some "sheet1", GOOGLE_CLIENT_EMAIL := some "svc",
          GOOGLE_PRIVATE_KEY := some "key" }
        { nowISO := "t0", appendResult := .error "boom" } "push" { }
      = (.error "boom",
          [.sheetAppend "sheet1" "Logs!A:D"
            [["t0", "push", decideAction (summarizeEvent "push" { }),
              summarizeEvent "push" { }]]]) :=
  ⟨claim_logging_failure_propagates.1 { } { } "push" "fix-or-feature" "sum" rfl,
    claim_logging_failure_propagates.2
      { GOOGLE_SHEETS_ID := some "sheet1", GOOGLE_CLIENT_EMAIL := some "svc",
        GOOGLE_PRIVATE_KEY := some "key" }
      { nowISO := "t0", appendResult := .error "boom" } "push" { } "sheet1" "boom"
      rfl rfl rfl⟩

/-- C3 as stated is false: the notification send is awaited with no
try/catch, so when it rejects the already-computed dispatch result
("LLM answer", visible inside the composed message) is discarded and
`handleWebhook` rejects with the notification error instead of
returning the result. -/
theorem claim_notifier_isolated_cex :
    handleWebhook
        { TELEGRAM_BOT_TOKEN := some "bot", TELEGRAM_CHAT_ID := some "42" }
        { llmResult := .ok "LLM answer", sendMessageResult := .error "telegram down" }
        "push" { }
      = (.error "telegram down",
          [.llmInvoke "Push to unknown: undefined",
           .telegramSend "42"
             "Linda update: fix-or-feature completed. Summary: Push to unknown: undefined. Result: LLM answer"]) := rfl

/-- C3 amended: when notification credentials are absent the Notifier
returns the "Missing TELEGRAM_BOT_TOKEN or TELEGRAM_CHAT_ID" status
without failing and the dispatch result is returned unchanged; but when
the credentials are present and the send-message call rejects, the
failure is not isolated: the request rejects with the notification
error and the dispatch result is lost. -/
theorem claim_notifier_outcomes :
    (∀ (env : Env) (ext : Ext) (m : String),
        env.TELEGRAM_BOT_TOKEN = none ∨ env.TELEGRAM_CHAT_ID = none →
        sendTelegramNotification env ext m
          = (.ok "Missing TELEGRAM_BOT_TOKEN or TELEGRAM_CHAT_ID", []))
    ∧ (∀ (env : Env) (ext : Ext) (event : String) (payload : Payload) (result : String),
        (logToSheet env ext event (decideAction (summarizeEvent event payload))
            (summarizeEvent event payload)).1 = .ok () →
        (if decideAction (summarizeEvent event payload) = "build-agent"
          then buildNewAgentRepo env ext (summarizeEvent event payload)
          else runAgent ext (summarizeEvent event payload)).1 = .ok result →
        ((env.TELEGRAM_BOT_TOKEN = none ∨ env.TELEGRAM_CHAT_ID = none →
            (handleWebhook env ext event payload).1 = .ok result)
          ∧ (∀ bot chat err, env.TELEGRAM_BOT_TOKEN = some bot →
              env.TELEGRAM_CHAT_ID = some chat →
              ext.sendMessageResult = .error err →
              (handleWebhook env ext event payload).1 = .error err))) := by
  constructor
  · intro env ext m h
    rcases h with h | h
    · simp [sendTelegramNotification, h]
    · cases hb : env.TELEGRAM_BOT_TOKEN <;> simp [sendTelegramNotification, h, hb]
  · intro env ext event payload result hlog hdisp
    constructor
    · intro h
      rcases h with h | h
      · simp [handleWebhook, hlog, hdisp, sendTelegramNotification, h]
      · cases hb : env.TELEGRAM_BOT_TOKEN <;>
          simp [handleWebhook, hlog, hdisp, sendTelegramNotification, h, hb]
    · intro bot chat err hbot hchat herr
      simp [handleWebhook, hlog, hdisp, sendTelegramNotification, hbot, hchat, herr]

/-- Witness for the amended C3 theorem: with no Telegram credentials the
dispatch result survives; with credentials and a rejecting send, the
request rejects with the notification error. -/
theorem claim_notifier_outcomes_witness :
    sendTelegramNotification { } { } "hello"
      = (.ok "Missing TELEGRAM_BOT_TOKEN or TELEGRAM_CHAT_ID", [])
    ∧ (handleWebhook { } { llmResult := .ok "done" } "push" { }).1 = .ok "done"
    ∧ (handleWebhook { TELEGRAM_BOT_TOKEN := some "bot", TELEGRAM_CHAT_ID := some "42" }
        { llmResult := .ok "done", sendMessageResult := .error "net down" } "push" { }).1
      = .error "net down" :=
  ⟨claim_notifier_outcomes.1 { } { } "hello" (Or.inl rfl),
    (claim_notifier_outcomes.2 { } { llmResult := .ok "done" } "push" { } "done"
        rfl rfl).1 (Or.inl rfl),
    (claim_notifier_outcomes.2
        { TELEGRAM_BOT_TOKEN := some "bot", TELEGRAM_CHAT_ID := some "42" }
        { llmResult := .ok "done", sendMessageResult := .error "net down" } "push" { }
        "done" rfl rfl).2 "bot" "42" "net down" rfl rfl rfl⟩

/-- C9: with the repository-host token or the configured owner absent,
the Agent-Scaffold Builder returns the corresponding configuration-error
string immediately with an empty effect trace (no remote call); with
both present and the remote calls succeeding, it creates the private
repository `agent-${Date.now()}` with the fixed description, commits the
README scaffold to its main branch, and returns the confirmation string
naming that repository. -/
theorem claim_builder_spec :
    (∀ (env : Env) (ext : Ext) (summary : String), env.GITHUB_TOKEN = none →
        buildNewAgentRepo env ext summary = (.ok "Missing GITHUB_TOKEN", []))
    ∧ (∀ (env : Env) (ext : Ext) (summary tok : String),
        env.GITHUB_TOKEN = some tok → env.GITHUB_OWNER = none →
        buildNewAgentRepo env ext summary = (.ok "Missing GITHUB_OWNER", []))
    ∧ (∀ (env : Env) (ext : Ext) (summary tok owner : String),
        env.GITHUB_TOKEN = some tok → env.GITHUB_OWNER = some owner →
        ext.createRepoResult = .ok () → ext.commitResult = .ok () →
        buildNewAgentRepo env ext summary
          = (.ok ("Created new agent repository: " ++ ("agent-" ++ toString ext.now)),
              [.createRepo ("agent-" ++ toString ext.now)
                  "Generated agent scaffold from Linda" true,
               .gitCommit owner ("agent-" ++ toString ext.now) "README.md"
                  "chore: initial agent scaffold"
                  ("# " ++ ("agent-" ++ toString ext.now)
                    ++ "\n\nGenerated by Linda. Summary: " ++ summary ++ "\n")
                  "main"])) := by
  refine ⟨?_, ?_, ?_⟩
  · intro env ext summary h
    simp [buildNewAgentRepo, h]
  · intro env ext summary tok htok hown
    simp [buildNewAgentRepo, htok, hown]
  · intro env ext summary tok owner htok hown hcreate hcommit
    simp [buildNewAgentRepo, commitFileToGitHub, htok, hown, hcreate, hcommit]

/-- Witness for C9: the two configuration-error short-circuits and a
successful scaffold, at concrete inputs. -/
theorem claim_builder_spec_witness :
    buildNewAgentRepo { } { } "sum" = (.ok "Missing GITHUB_TOKEN", [])
    ∧ buildNewAgentRepo { GITHUB_TOKEN := some "t" } { } "sum"
      = (.ok "Missing GITHUB_OWNER", [])
    ∧ buildNewAgentRepo { GITHUB_TOKEN := some "t", GITHUB_OWNER := some "octo" }
        { now := 42 } "sum"
      = (.ok ("Created new agent repository: " ++ ("agent-" ++ toString (42 : Nat))),
          [.createRepo ("agent-" ++ toString (42 : Nat))
              "Generated agent scaffold from Linda" true,
           .gitCommit "octo" ("agent-" ++ toString (42 : Nat)) "README.md"
              "chore: initial agent scaffold"
              ("# " ++ ("agent-" ++ toString (42 : Nat))
                ++ "\n\nGenerated by Linda. Summary: " ++ "sum" ++ "\n")
              "main"]) :=
  ⟨claim_builder_spec.1 { } { } "sum" rfl,
    claim_builder_spec.2.1 { GITHUB_TOKEN := some "t" } { } "sum" "t" rfl rfl,
    claim_builder_spec.2.2 { GITHUB_TOKEN := some "t", GITHUB_OWNER := some "octo" }
      { now := 42 } "sum" "t" "octo" rfl rfl rfl rfl⟩

/-- No step of the Logger ever performs a chat send. -/
theorem telegramSend_not_mem_logToSheet (env : Env) (ext : Ext)
    (event action summary c m : String) :
    Effect.telegramSend c m ∉ (logToSheet env ext event action summary).2 := by
  unfold logToSheet appendToSheet
  split
  · simp
  · split <;> simp

/-- No step of the Agent-Scaffold Builder ever performs a chat send. -/
theorem telegramSend_not_mem_build (env : Env) (ext : Ext) (s c m : String) :
    Effect.telegramSend c m ∉ (buildNewAgentRepo env ext s).2 := by
  cases htok : env.GITHUB_TOKEN <;> cases hown : env.GITHUB_OWNER <;>
    cases hcr : ext.createRepoResult <;> cases hcm : ext.commitResult <;>
      simp [buildNewAgentRepo, commitFileToGitHub, htok, hown, hcr, hcm]

/-- No step of either dispatch branch ever performs a chat send. -/
theorem telegramSend_not_mem_dispatch (env : Env) (ext : Ext) (s c m : String) :
    Effect.telegramSend c m
      ∉ (if decideAction s = "build-agent"
          then buildNewAgentRepo env ext s else runAgent ext s).2 := by
  split
  · exact telegramSend_not_mem_build env ext s c m
  · simp [runAgent]

/-- Any chat send the Notifier records carries exactly the message it
was asked to send. -/
theorem mem_sendTelegramNotification_eq (env : Env) (ext : Ext) (m c msg : String)
    (h : Effect.telegramSend c msg ∈ (sendTelegramNotification env ext m).2) :
    msg = m := by
  unfold sendTelegramNotification at h
  split at h
  · split at h <;> simp at h <;> exact h.2
  · simp at h

/-- C10: every message the pipeline sends to the chat channel is exactly
"Linda update: " ++ action ++ " completed. Summary: " ++ summary ++
". Result: " ++ result, where action is the classifier output (one of
the literals "build-agent" / "fix-or-feature"), summary is the computed
summary, and result is the successfully computed dispatch result. -/
theorem claim_notification_message (env : Env) (ext : Ext) (event : String)
    (payload : Payload) (chatId msg : String)
    (h : Effect.telegramSend chatId msg ∈ (handleWebhook env ext event payload).2) :
    (decideAction (summarizeEvent event payload) = "build-agent"
      ∨ decideAction (summarizeEvent event payload) = "fix-or-feature")
    ∧ ∃ result,
        (if decideAction (summarizeEvent event payload) = "build-agent"
          then buildNewAgentRepo env ext (summarizeEvent event payload)
          else runAgent ext (summarizeEvent event payload)).1 = .ok result
        ∧ msg = "Linda update: " ++ decideAction (summarizeEvent event payload)
            ++ " completed. Summary: " ++ summarizeEvent event payload
            ++ ". Result: " ++ result := by
  refine ⟨decideAction_eq_or _, ?_⟩
  simp only [handleWebhook] at h
  split at h
  · simp at h
    exact absurd h (telegramSend_not_mem_logToSheet _ _ _ _ _ _ _)
  · split at h
    · simp at h
      rcases h with h | h
      · exact absurd h (telegramSend_not_mem_logToSheet _ _ _ _ _ _ _)
      · exact absurd h (telegramSend_not_mem_dispatch _ _ _ _ _)
    · rename_i result hdisp
      split at h
      · simp at h
        rcases h with h | h | h
        · exact absurd h (telegramSend_not_mem_logToSheet _ _ _ _ _ _ _)
        · exact absurd h (telegramSend_not_mem_dispatch _ _ _ _ _)
        · exact ⟨result, hdisp, mem_sendTelegramNotification_eq _ _ _ _ _ h⟩
      · simp at h
        rcases h with h | h | h
        · exact absurd h (telegramSend_not_mem_logToSheet _ _ _ _ _ _ _)
        · exact absurd h (telegramSend_not_mem_dispatch _ _ _ _ _)
        · exact ⟨result, hdisp, mem_sendTelegramNotification_eq _ _ _ _ _ h⟩

/-- Witness for C10 at a concrete configured request whose trace does
contain a chat send. -/
theorem claim_notification_message_witness :
    (decideAction (summarizeEvent "push" { }) = "build-agent"
      ∨ decideAction (summarizeEvent "push" { }) = "fix-or-feature")
    ∧ ∃ result,
        (if decideAction (summarizeEvent "push" { }) = "build-agent"
          then buildNewAgentRepo
            { TELEGRAM_BOT_TOKEN := some "bot", TELEGRAM_CHAT_ID := some "42" }
            { llmResult := .ok "done" } (summarizeEvent "push" { })
          else runAgent { llmResult := .ok "done" } (summarizeEvent "push" { })).1
          = .ok result
        ∧ "Linda update: fix-or-feature completed. Summary: Push to unknown: undefined. Result: done"
          = "Linda update: " ++ decideAction (summarizeEvent "push" { })
            ++ " completed. Summary: " ++ summarizeEvent "push" { }
            ++ ". Result: " ++ result :=
  claim_notification_message
    { TELEGRAM_BOT_TOKEN := some "bot", TELEGRAM_CHAT_ID := some "42" }
    { llmResult := .ok "done" } "push" { } "42"
    "Linda update: fix-or-feature completed. Summary: Push to unknown: undefined. Result: done"
    (by decide)

end Linda
